import Mathlib

/-!
Shallow embedding of `src/templates/python-template/script.py`, a Python CLI
script template, and proofs about its specified behaviour.

Modelling conventions:
* Python exceptions are the inductive `PyExc`; code that may raise returns
  `Except PyExc α`; a `try/except` block is a `match` on that result.
* The file system is a structure `FS`: `pathExists` models `Path.exists()`,
  and `readFile` models `open(...)` + reading the file contents, where
  `none` models the `OSError`/`IOError` raised when the file is unreadable
  (`IOError` is an alias of `OSError` in Python 3).
* `json.load` is an abstract parameter `json_load : String → Option Json`;
  `none` models `json.JSONDecodeError` (a subclass of `ValueError`).
* Logging is explicit: each function returns the list of `LogRec` records it
  passes to the logger, tagged with the Python level; `emitted` filters them
  by the configured threshold, as `logging.basicConfig(level=...)` does.
* `sys.version_info` is a list of numeric components compared with Python's
  lexicographic tuple order `pyTupleLt`.
-/

namespace Script

/-- Python logging levels used by the template (numeric values as in the
`logging` module: DEBUG=10, INFO=20, WARNING=30, ERROR=40). -/
inductive Level where
  | debug
  | info
  | warning
  | error
deriving DecidableEq, Repr

/-- Numeric value of a logging level, as in Python's `logging` module. -/
def Level.value : Level → Nat
  | .debug => 10
  | .info => 20
  | .warning => 30
  | .error => 40

/-- One record passed to the logger: its level and its formatted message. -/
structure LogRec where
  level : Level
  msg : String
deriving DecidableEq, Repr

/-- A JSON value, the result of `json.load`.  Numbers are modelled as
integers; the claims do not depend on fractional values. -/
inductive Json where
  | null
  | bool (b : Bool)
  | num (n : Int)
  | str (s : String)
  | arr (elems : List Json)
  | obj (fields : List (String × Json))

/-- The Python exceptions that can appear in the template.
`jsonDecodeError` is a subclass of `ValueError` in Python, which
`PyExc.isValueError` reflects. -/
inductive PyExc where
  | keyboardInterrupt
  | osError (m : String)
  | valueError (m : String)
  | jsonDecodeError (m : String)
  | typeError (m : String)
  | calledProcessError (returncode : Int) (stdout : String) (stderr : String)
  | otherError (m : String)
deriving DecidableEq, Repr

/-- Does `except OSError` (or the alias `IOError`) catch this exception? -/
def PyExc.isOSError : PyExc → Bool
  | .osError _ => true
  | _ => false

/-- Does `except ValueError` catch this exception?  `json.JSONDecodeError`
is a subclass of `ValueError`. -/
def PyExc.isValueError : PyExc → Bool
  | .valueError _ => true
  | .jsonDecodeError _ => true
  | _ => false

/-- The message `str(e)` used when the exception is interpolated into a log
line. -/
def PyExc.message : PyExc → String
  | .keyboardInterrupt => ""
  | .osError m => m
  | .valueError m => m
  | .jsonDecodeError m => m
  | .typeError m => m
  | .calledProcessError rc _ _ =>
      "Command returned non-zero exit status " ++ toString rc ++ "."
  | .otherError m => m

/-- The file system as the template sees it: `pathExists` models
`Path.exists()`, `readFile` models `open(path, encoding='utf-8')` plus
reading; `none` models the `OSError`/`IOError` raised by an unreadable
file. -/
structure FS where
  pathExists : String → Bool
  readFile : String → Option String

/-- The `try:` block of `load_config` (script.py lines 106-110): open and
read the file, then parse it with `json.load`; each failure raises the
corresponding exception. -/
def load_config_try (fs : FS) (json_load : String → Option Json)
    (config_path : String) : Except PyExc Json :=
  match fs.readFile config_path with
  | none => .error (.osError ("could not read " ++ config_path))
  | some s =>
    match json_load s with
    | none => .error (.jsonDecodeError "Expecting value")
    | some j => .ok j

/-- `load_config` (script.py lines 89-117): if the path does not exist, log
a warning and return `{}`; otherwise run the `try:` block and catch
`json.JSONDecodeError` and `(OSError, IOError)`, each logging an error and
returning `{}`.  Any other exception would propagate (the final branch).
Returns the log records together with the result. -/
def load_config (fs : FS) (json_load : String → Option Json)
    (config_path : String) : List LogRec × Except PyExc Json :=
  if fs.pathExists config_path = false then
    ([⟨.warning, "Configuration file " ++ config_path ++
        " not found, using defaults"⟩], .ok (Json.obj []))
  else
    match load_config_try fs json_load config_path with
    | .ok config =>
        ([⟨.debug, "Loaded configuration from " ++ config_path⟩], .ok config)
    | .error (.jsonDecodeError m) =>
        ([⟨.error, "Invalid JSON in configuration file " ++ config_path ++
            ": " ++ m⟩], .ok (Json.obj []))
    | .error (.osError m) =>
        ([⟨.error, "Error reading configuration file " ++ config_path ++
            ": " ++ m⟩], .ok (Json.obj []))
    | .error e => ([], .error e)

/-- **C1.** For every file-system state, parser and path, `load_config`
never raises past its own boundary (its result is always `.ok`), and on
each failure path — absent file, unreadable file, invalid JSON — it returns
the empty mapping `{}`, logging a warning for the absent file and an error
for the other two cases. -/
theorem load_config_never_raises (fs : FS) (json_load : String → Option Json)
    (p : String) :
    (∃ v, (load_config fs json_load p).2 = .ok v) ∧
    (fs.pathExists p = false →
      load_config fs json_load p =
        ([⟨.warning, "Configuration file " ++ p ++
            " not found, using defaults"⟩], .ok (Json.obj []))) ∧
    (fs.pathExists p = true → fs.readFile p = none →
      load_config fs json_load p =
        ([⟨.error, "Error reading configuration file " ++ p ++ ": " ++
            ("could not read " ++ p)⟩], .ok (Json.obj []))) ∧
    (∀ s, fs.pathExists p = true → fs.readFile p = some s →
      json_load s = none →
      load_config fs json_load p =
        ([⟨.error, "Invalid JSON in configuration file " ++ p ++
            ": " ++ "Expecting value"⟩], .ok (Json.obj []))) := by
  by_cases hex : fs.pathExists p
  · cases hrd : fs.readFile p with
    | none =>
        refine ⟨⟨Json.obj [], ?_⟩, ?_, ?_, ?_⟩ <;>
          simp [load_config, load_config_try, hex, hrd]
    | some s =>
        cases hjs : json_load s with
        | none =>
            refine ⟨⟨Json.obj [], ?_⟩, ?_, ?_, ?_⟩ <;>
              simp [load_config, load_config_try, hex, hrd, hjs]
        | some j =>
            refine ⟨⟨j, ?_⟩, ?_, ?_, ?_⟩ <;>
              simp [load_config, load_config_try, hex, hrd, hjs]
  · refine ⟨⟨Json.obj [], ?_⟩, ?_, ?_, ?_⟩ <;>
      simp [load_config, hex]

/-- Witness for C1: the three failure paths evaluated at concrete inputs. -/
theorem load_config_never_raises_witness :
    ((⟨fun _ => false, fun _ => none⟩ : FS).pathExists "cfg.json" = false ∧
      load_config ⟨fun _ => false, fun _ => none⟩ (fun _ => none) "cfg.json" =
        ([⟨.warning,
            "Configuration file cfg.json not found, using defaults"⟩],
          .ok (Json.obj []))) ∧
    load_config ⟨fun _ => true, fun _ => none⟩ (fun _ => none) "cfg.json" =
      ([⟨.error,
          "Error reading configuration file cfg.json: could not read cfg.json"⟩],
        .ok (Json.obj [])) ∧
    load_config ⟨fun _ => true, fun _ => some "oops"⟩ (fun _ => none)
        "cfg.json" =
      ([⟨.error,
          "Invalid JSON in configuration file cfg.json: Expecting value"⟩],
        .ok (Json.obj [])) := by
  refine ⟨⟨rfl, ?_⟩, ?_, ?_⟩
  · exact (load_config_never_raises ⟨fun _ => false, fun _ => none⟩
      (fun _ => none) "cfg.json").2.1 rfl
  · exact (load_config_never_raises ⟨fun _ => true, fun _ => none⟩
      (fun _ => none) "cfg.json").2.2.1 rfl rfl
  · exact (load_config_never_raises ⟨fun _ => true, fun _ => some "oops"⟩
      (fun _ => none) "cfg.json").2.2.2 "oops" rfl rfl rfl

/-- **C6.** For every file whose contents parse as a JSON object,
`load_config` returns exactly that object (identical key/value pairs),
logging only the debug message. -/
theorem load_config_valid_object (fs : FS) (json_load : String → Option Json)
    (p s : String) (pairs : List (String × Json))
    (hex : fs.pathExists p = true) (hrd : fs.readFile p = some s)
    (hjs : json_load s = some (Json.obj pairs)) :
    load_config fs json_load p =
      ([⟨.debug, "Loaded configuration from " ++ p⟩], .ok (Json.obj pairs)) := by
  simp [load_config, load_config_try, hex, hrd, hjs]

/-- Witness for C6 at a concrete one-entry object file. -/
theorem load_config_valid_object_witness :
    load_config ⟨fun _ => true, fun _ => some "\x7b\"a\": 1\x7d"⟩
        (fun _ => some (Json.obj [("a", Json.num 1)])) "cfg.json" =
      ([⟨.debug, "Loaded configuration from cfg.json"⟩],
        .ok (Json.obj [("a", Json.num 1)])) :=
  load_config_valid_object ⟨fun _ => true, fun _ => some "\x7b\"a\": 1\x7d"⟩
    (fun _ => some (Json.obj [("a", Json.num 1)])) "cfg.json" "\x7b\"a\": 1\x7d"
    [("a", Json.num 1)] rfl rfl rfl

/-- **C10.** `load_config` does not enforce that the parsed value is a
mapping: any successfully parsed JSON value, object or not, is returned
unchanged. -/
theorem load_config_non_mapping (fs : FS) (json_load : String → Option Json)
    (p s : String) (j : Json)
    (hex : fs.pathExists p = true) (hrd : fs.readFile p = some s)
    (hjs : json_load s = some j)
    (hnm : ∀ fields, j ≠ Json.obj fields) :
    (load_config fs json_load p).2 = .ok j := by
  simp [load_config, load_config_try, hex, hrd, hjs]

/-- Witness for C10: a file holding the JSON array `[1]` is returned as is. -/
theorem load_config_non_mapping_witness :
    (load_config ⟨fun _ => true, fun _ => some "[1]"⟩
        (fun _ => some (Json.arr [Json.num 1])) "cfg.json").2 =
      .ok (Json.arr [Json.num 1]) :=
  load_config_non_mapping ⟨fun _ => true, fun _ => some "[1]"⟩
    (fun _ => some (Json.arr [Json.num 1])) "cfg.json" "[1]"
    (Json.arr [Json.num 1]) rfl rfl rfl
    (fun fields h => Json.noConfusion h)

/-- Python's lexicographic comparison of numeric tuples, used by
`sys.version_info < (3, 8)`: compare componentwise; a strict prefix is
smaller than the longer tuple. -/
def pyTupleLt : List Nat → List Nat → Bool
  | [], [] => false
  | [], _ :: _ => true
  | _ :: _, [] => false
  | a :: as, b :: bs =>
    if a < b then true
    else if b < a then false
    else pyTupleLt as bs

/-- `check_requirements` (script.py lines 33-52): log an error and return
`False` when `sys.version_info < (3, 8)`, otherwise log a debug message and
return `True`.  The running interpreter version is the explicit argument. -/
def check_requirements (version_info : List Nat) : Bool × List LogRec :=
  if pyTupleLt version_info [3, 8] then
    (false, [⟨.error, "Python 3.8 or higher is required"⟩])
  else
    (true, [⟨.debug, "All requirements satisfied"⟩])

/-- The spec's wording of "below the stated minimum (Python 3.8)": major
version before 3, or major 3 with minor before 8. -/
def versionBelowMin (major minor : Nat) : Prop :=
  major < 3 ∨ (major = 3 ∧ minor < 8)

/-- **C5.** `check_requirements` returns `false` exactly when the
interpreter version is below Python 3.8 (in the spec's sense), `true`
otherwise, and its only side effect is a single log message. -/
theorem check_requirements_spec (major minor micro : Nat) :
    ((check_requirements [major, minor, micro]).1 = false ↔
      versionBelowMin major minor) ∧
    (check_requirements [major, minor, micro]).2.length = 1 := by
  constructor
  · simp only [check_requirements, pyTupleLt, versionBelowMin]
    split_ifs with h1 h2 h3 h4 h5 <;> simp_all <;> omega
  · simp only [check_requirements]
    split <;> simp

/-- The result of a finished external process: `subprocess.CompletedProcess`
with `capture_output=True, text=True`. -/
structure CompletedProcess where
  returncode : Int
  stdout : String
  stderr : String
deriving DecidableEq, Repr

/-- `subprocess.run(command, cwd=cwd, capture_output=True, text=True,
check=True)` (script.py lines 74-80): the environment `spawn` gives the
process outcome for a command; `check=True` raises
`CalledProcessError` carrying the captured output whenever the exit status
is non-zero. -/
def subprocess_run (spawn : List String → CompletedProcess)
    (command : List String) : Except PyExc CompletedProcess :=
  let result := spawn command
  if result.returncode = 0 then .ok result
  else .error (.calledProcessError result.returncode result.stdout
    result.stderr)

/-- `run_command` (script.py lines 55-86): log the command, run it with
`check=True`; on success log the (stripped) stdout and return the result;
on `CalledProcessError` log the failure and the captured stderr, then
re-raise the same exception. -/
def run_command (spawn : List String → CompletedProcess)
    (command : List String) :
    List LogRec × Except PyExc CompletedProcess :=
  let runLog : LogRec :=
    ⟨.debug, "Running command: " ++ String.intercalate " " command⟩
  match subprocess_run spawn command with
  | .ok result =>
      ([runLog, ⟨.debug, "Command output: " ++ result.stdout.trim⟩],
        .ok result)
  | .error e =>
      match e with
      | .calledProcessError rc out err =>
          ([runLog, ⟨.error, "Command failed: " ++ e.message⟩,
            ⟨.error, "stderr: " ++ err⟩],
            .error (.calledProcessError rc out err))
      | e => ([runLog], .error e)

/-- **C4.** Whenever the external process exits non-zero, `run_command`
logs the captured stderr and re-raises the `CalledProcessError` as-is,
still carrying the captured exit status, stdout and stderr. -/
theorem run_command_failure (spawn : List String → CompletedProcess)
    (command : List String) (h : (spawn command).returncode ≠ 0) :
    (run_command spawn command).2 =
      .error (.calledProcessError (spawn command).returncode
        (spawn command).stdout (spawn command).stderr) ∧
    (⟨.error, "stderr: " ++ (spawn command).stderr⟩ : LogRec) ∈
      (run_command spawn command).1 := by
  simp [run_command, subprocess_run, h]

/-- Witness for C4: a command exiting with status 2 and stderr "boom". -/
theorem run_command_failure_witness :
    ((fun _ => (⟨2, "", "boom"⟩ : CompletedProcess)) ["false"]).returncode ≠ 0 ∧
    (run_command (fun _ => ⟨2, "", "boom"⟩) ["false"]).2 =
      .error (.calledProcessError 2 "" "boom") ∧
    (⟨.error, "stderr: boom"⟩ : LogRec) ∈
      (run_command (fun _ => ⟨2, "", "boom"⟩) ["false"]).1 := by
  refine ⟨by decide, ?_⟩
  exact run_command_failure (fun _ => ⟨2, "", "boom"⟩) ["false"] (by decide)

/-- **C9.** Whenever `run_command` returns normally, the returned result is
exactly the process outcome (captured stdout and stderr as text) and its
exit status is 0. -/
theorem run_command_success (spawn : List String → CompletedProcess)
    (command : List String) (r : CompletedProcess)
    (h : (run_command spawn command).2 = .ok r) :
    r.returncode = 0 ∧ r = spawn command := by
  by_cases h0 : (spawn command).returncode = 0
  · have : r = spawn command := by
      simpa [run_command, subprocess_run, h0] using h.symm
    exact ⟨this ▸ h0, this⟩
  · exact absurd h (by simp [run_command, subprocess_run, h0])

/-- Witness for C9: a command exiting with status 0. -/
theorem run_command_success_witness :
    ((⟨0, "out", ""⟩ : CompletedProcess).returncode = 0 ∧
      (⟨0, "out", ""⟩ : CompletedProcess) =
        (fun _ => (⟨0, "out", ""⟩ : CompletedProcess)) ["true"]) :=
  run_command_success (fun _ => ⟨0, "out", ""⟩) ["true"] ⟨0, "out", ""⟩ rfl

/-- `setup_logging` (script.py lines 22-30): the configured threshold is
DEBUG when verbose, INFO otherwise. -/
def setup_logging (verbose : Bool) : Level :=
  if verbose then .debug else .info

/-- The records actually emitted by the logger: those whose level reaches
the configured threshold, in order. -/
def emitted (threshold : Level) (logs : List LogRec) : List LogRec :=
  logs.filter (fun r => threshold.value ≤ r.level.value)

/-- The parsed command-line arguments (script.py lines 123-152). -/
structure Args where
  verbose : Bool
  dry_run : Bool
  config : String
deriving DecidableEq, Repr

/-- The default `--config` value: `Path.home() / '.config' /
'\x7b\x7bSCRIPT_NAME\x7d\x7d.json'` (script.py lines 140-146). -/
def defaultConfigPath (home : String) : String :=
  home ++ "/.config/" ++ "\x7b\x7bSCRIPT_NAME\x7d\x7d.json"

/-- `parser.parse_args()` on an empty command line: both flags off, config
at its default path. -/
def parse_args_default (home : String) : Args :=
  ⟨false, false, defaultConfigPath home⟩

/-- The environment `main` runs in: the interpreter version, the file
system, and the JSON parser. -/
structure Env where
  version_info : List Nat
  fs : FS
  json_load : String → Option Json

/-- Python's `len()` as applied to a parsed JSON value: defined for
objects, arrays and strings, a `TypeError` otherwise. -/
def pyLen : Json → Except PyExc Nat
  | .obj fields => .ok fields.length
  | .arr elems => .ok elems.length
  | .str s => .ok s.length
  | .num _ => .error (.typeError "object of type int has no len()")
  | .bool _ => .error (.typeError "object of type bool has no len()")
  | .null => .error (.typeError "object of type NoneType has no len()")

/-- The `try:` block of `main` (script.py lines 158-194): requirements
check (return 1 on failure), configuration load, the debug line whose
argument evaluates `len(config)`, the dry-run notice, the placeholder
notice, then return 0.  The middle component records every invocation of
`run_command`; the template invokes it nowhere (its only uses are in
comments). -/
def main_try (env : Env) (args : Args) :
    List LogRec × List (List String) × Except PyExc Int :=
  let (reqOk, reqLogs) := check_requirements env.version_info
  if reqOk = false then
    (reqLogs ++ [⟨.error, "Requirements check failed"⟩], [], .ok 1)
  else
    let (cfgLogs, cfgResult) := load_config env.fs env.json_load args.config
    match cfgResult with
    | .error e => (reqLogs ++ cfgLogs, [], .error e)
    | .ok config =>
      match pyLen config with
      | .error e => (reqLogs ++ cfgLogs, [], .error e)
      | .ok n =>
        let lenLog : LogRec :=
          ⟨.debug, "Loaded config with " ++ toString n ++ " entries"⟩
        let dryLogs : List LogRec :=
          if args.dry_run then
            [⟨.info, "DRY RUN MODE - No changes will be made"⟩]
          else []
        (reqLogs ++ cfgLogs ++ [lenLog] ++ dryLogs ++
          [⟨.info, "Script logic not yet implemented"⟩,
            ⟨.info, "\x7b\x7bSCRIPT_NAME\x7d\x7d completed successfully"⟩],
          [], .ok 0)

/-- The `except` clauses of `main` (script.py lines 196-208), applied to
the outcome of the `try:` block: `KeyboardInterrupt` returns 130;
`(OSError, ValueError)` logs and returns 1, printing a traceback only when
verbose; any other exception logs it, optionally prints a traceback, and
re-raises.  Returns the handler's log records, whether
`traceback.print_exc()` ran, and the final outcome. -/
def main_handle (verbose : Bool) :
    Except PyExc Int → List LogRec × Bool × Except PyExc Int
  | .ok n => ([], false, .ok n)
  | .error e =>
    if e = .keyboardInterrupt then
      ([⟨.warning, "Script interrupted by user"⟩], false, .ok 130)
    else if e.isOSError || e.isValueError then
      ([⟨.error, "Handled error: " ++ e.message⟩], verbose, .ok 1)
    else
      ([⟨.error, "Unexpected error: " ++ e.message⟩], verbose, .error e)

/-- Everything observable about one run of `main`: the configured logging
threshold, all records passed to the logger in order, whether
`traceback.print_exc()` ran, the `run_command` invocations, and the
outcome (a returned status, or an exception escaping `main`). -/
structure MainOutcome where
  threshold : Level
  logs : List LogRec
  tracePrinted : Bool
  cmds : List (List String)
  result : Except PyExc Int
deriving Repr

/-- `main` (script.py lines 120-208) with the guarded block abstracted: set
up logging, log the start message, run the body, apply the `except`
clauses.  `body` stands for the outcome of the `try:` block — in a real
run a `KeyboardInterrupt` may surface from any point inside it. -/
def main_with_body (args : Args)
    (body : List LogRec × List (List String) × Except PyExc Int) :
    MainOutcome :=
  let threshold := setup_logging args.verbose
  let startLog : LogRec :=
    ⟨.info, "Starting \x7b\x7bSCRIPT_NAME\x7d\x7d"⟩
  let (tryLogs, cmds, tryResult) := body
  let (handlerLogs, trace, result) := main_handle args.verbose tryResult
  ⟨threshold, startLog :: (tryLogs ++ handlerLogs), trace, cmds, result⟩

/-- `main` proper: the guarded block is `main_try`. -/
def main (env : Env) (args : Args) : MainOutcome :=
  main_with_body args (main_try env args)

/-- The `if __name__ == '__main__': sys.exit(main())` footer (script.py
lines 211-212) together with the interpreter's treatment of the outcome: a
returned integer becomes the exit status (masked to a byte, as on POSIX);
an exception escaping `main` terminates the interpreter with status 1 and
a printed stack trace.  Returns (exit status, interpreter trace printed). -/
def script_exit : Except PyExc Int → Int × Bool
  | .ok n => (n.emod 256, false)
  | .error _ => (1, true)

/-- The `try:` block of `main` records no `run_command` invocation on any
path: the template's only uses of `run_command` are inside comments. -/
lemma main_try_cmds (env : Env) (args : Args) : (main_try env args).2.1 = [] := by
  unfold main_try
  rcases check_requirements env.version_info with ⟨reqOk, reqLogs⟩
  rcases load_config env.fs env.json_load args.config with ⟨cfgLogs, cfgResult⟩
  cases reqOk <;> cases cfgResult <;> simp
  rcases pyLen _ with e | n <;> simp

/-- `main` only reports the `run_command` invocations of its body. -/
lemma main_with_body_cmds (args : Args)
    (body : List LogRec × List (List String) × Except PyExc Int) :
    (main_with_body args body).cmds = body.2.1 := by
  rcases body with ⟨l, c, r⟩
  rcases hmh : main_handle args.verbose r with ⟨hl, tr, res⟩
  simp [main_with_body, hmh]

/-- Every log record of the guarded block appears among `main`'s records. -/
lemma main_with_body_logs_mem (args : Args)
    (body : List LogRec × List (List String) × Except PyExc Int)
    (x : LogRec) (hx : x ∈ body.1) : x ∈ (main_with_body args body).logs := by
  rcases body with ⟨l, c, r⟩
  rcases hmh : main_handle args.verbose r with ⟨hl, tr, res⟩
  simp only [main_with_body, hmh, List.mem_cons, List.mem_append]
  exact Or.inr (Or.inl hx)

/-- **C2.** When the guarded block of `main` ends in an exception other
than `KeyboardInterrupt`: a recognized error (`OSError` or `ValueError`,
which includes `json.JSONDecodeError`) is logged and turned into return
status 1, with `traceback.print_exc()` running exactly when `--verbose` is
set; any unrecognized error is logged and re-raised, so the process
terminates with exit status 1 (non-zero) and the interpreter's full stack
trace. -/
theorem main_top_level_errors (args : Args) (tryLogs : List LogRec)
    (cmds : List (List String)) (e : PyExc)
    (hki : e ≠ .keyboardInterrupt) :
    ((e.isOSError || e.isValueError) = true →
      (main_with_body args (tryLogs, cmds, .error e)).result = .ok 1 ∧
      script_exit (main_with_body args (tryLogs, cmds, .error e)).result =
        (1, false) ∧
      (main_with_body args (tryLogs, cmds, .error e)).tracePrinted =
        args.verbose ∧
      (⟨.error, "Handled error: " ++ e.message⟩ : LogRec) ∈
        (main_with_body args (tryLogs, cmds, .error e)).logs) ∧
    ((e.isOSError || e.isValueError) = false →
      (main_with_body args (tryLogs, cmds, .error e)).result = .error e ∧
      (⟨.error, "Unexpected error: " ++ e.message⟩ : LogRec) ∈
        (main_with_body args (tryLogs, cmds, .error e)).logs ∧
      (script_exit (main_with_body args (tryLogs, cmds, .error e)).result).1
        ≠ 0 ∧
      (script_exit (main_with_body args (tryLogs, cmds, .error e)).result).2
        = true) := by
  constructor
  · intro hrec
    refine ⟨?_, ?_, ?_, ?_⟩ <;>
      simp [main_with_body, main_handle, hki, hrec, script_exit] <;> decide
  · intro hrec
    refine ⟨?_, ?_, ?_, ?_⟩ <;>
      simp [main_with_body, main_handle, hki, hrec, script_exit]

/-- Witness for C2: a recognized `OSError` gives status 1; an unrecognized
`RuntimeError`-like exception is re-raised. -/
theorem main_top_level_errors_witness :
    ((PyExc.osError "disk").isOSError || (PyExc.osError "disk").isValueError)
      = true ∧
    (main_with_body ⟨true, false, "cfg"⟩
      ([], [], .error (.osError "disk"))).result = .ok 1 ∧
    ((PyExc.otherError "boom").isOSError ||
      (PyExc.otherError "boom").isValueError) = false ∧
    (main_with_body ⟨false, false, "cfg"⟩
      ([], [], .error (.otherError "boom"))).result =
        .error (.otherError "boom") := by
  refine ⟨by decide, ?_, by decide, ?_⟩
  · exact ((main_top_level_errors ⟨true, false, "cfg"⟩ [] [] (.osError "disk")
      (by decide)).1 (by decide)).1
  · exact ((main_top_level_errors ⟨false, false, "cfg"⟩ [] []
      (.otherError "boom") (by decide)).2 (by decide)).1

/-- **C3.** When a `KeyboardInterrupt` surfaces from the guarded block of
`main`, a warning is logged, `main` returns 130, and the process exit
status is exactly 130. -/
theorem main_interrupt_exit_130 (args : Args) (tryLogs : List LogRec)
    (cmds : List (List String)) :
    (main_with_body args
        (tryLogs, cmds, .error .keyboardInterrupt)).result = .ok 130 ∧
    script_exit (main_with_body args
        (tryLogs, cmds, .error .keyboardInterrupt)).result = (130, false) ∧
    (⟨.warning, "Script interrupted by user"⟩ : LogRec) ∈
      (main_with_body args
        (tryLogs, cmds, .error .keyboardInterrupt)).logs := by
  refine ⟨?_, ?_, ?_⟩ <;>
    simp [main_with_body, main_handle, script_exit] <;> decide

/-- **C7, counterexample.** The claimed log sequence — start, requirements
satisfied, configuration-not-found warning, not-yet-implemented, completed
successfully — is not produced on the claimed run (no arguments, no config
file, supported interpreter): "All requirements satisfied" is a debug
record and the default threshold is INFO, so it is not emitted. -/
theorem main_default_run_counterexample :
    ¬ ((emitted
        (main ⟨[3, 12, 0], ⟨fun _ => false, fun _ => none⟩, fun _ => none⟩
          (parse_args_default "/home/user")).threshold
        (main ⟨[3, 12, 0], ⟨fun _ => false, fun _ => none⟩, fun _ => none⟩
          (parse_args_default "/home/user")).logs).map LogRec.msg =
      ["Starting \x7b\x7bSCRIPT_NAME\x7d\x7d",
        "All requirements satisfied",
        "Configuration file /home/user/.config/\x7b\x7bSCRIPT_NAME\x7d\x7d.json not found, using defaults",
        "Script logic not yet implemented",
        "\x7b\x7bSCRIPT_NAME\x7d\x7d completed successfully"]) := by
  decide

/-- **C7, amended.** Running with no arguments, no existing configuration
file, and a supported interpreter version yields exit status 0; the
records passed to the logger are, in order: start, requirements satisfied
(debug), configuration-not-found warning, loaded-config-with-0-entries
(debug), not-yet-implemented, completed successfully; at the default INFO
threshold the emitted sequence omits the two debug records. -/
theorem main_default_run (home : String) (version : List Nat) (fs : FS)
    (json_load : String → Option Json)
    (hver : pyTupleLt version [3, 8] = false)
    (hfs : fs.pathExists (defaultConfigPath home) = false) :
    (main ⟨version, fs, json_load⟩ (parse_args_default home)).result =
      .ok 0 ∧
    script_exit
      (main ⟨version, fs, json_load⟩ (parse_args_default home)).result =
      (0, false) ∧
    (main ⟨version, fs, json_load⟩
        (parse_args_default home)).logs.map LogRec.msg =
      ["Starting \x7b\x7bSCRIPT_NAME\x7d\x7d",
        "All requirements satisfied",
        "Configuration file " ++ defaultConfigPath home ++
          " not found, using defaults",
        "Loaded config with 0 entries",
        "Script logic not yet implemented",
        "\x7b\x7bSCRIPT_NAME\x7d\x7d completed successfully"] ∧
    (emitted
        (main ⟨version, fs, json_load⟩ (parse_args_default home)).threshold
        (main ⟨version, fs, json_load⟩
          (parse_args_default home)).logs).map LogRec.msg =
      ["Starting \x7b\x7bSCRIPT_NAME\x7d\x7d",
        "Configuration file " ++ defaultConfigPath home ++
          " not found, using defaults",
        "Script logic not yet implemented",
        "\x7b\x7bSCRIPT_NAME\x7d\x7d completed successfully"] := by
  refine ⟨?_, ?_, ?_, ?_⟩ <;>
    simp [main, main_with_body, main_try, main_handle, check_requirements,
      hver, load_config, hfs, pyLen, parse_args_default, setup_logging,
      emitted, script_exit, Level.value] <;> decide

/-- Witness for C7 (amended) at a concrete environment. -/
theorem main_default_run_witness :
    (main ⟨[3, 12, 0], ⟨fun _ => false, fun _ => none⟩, fun _ => none⟩
      (parse_args_default "/home/user")).result = .ok 0 ∧
    (emitted
        (main ⟨[3, 12, 0], ⟨fun _ => false, fun _ => none⟩, fun _ => none⟩
          (parse_args_default "/home/user")).threshold
        (main ⟨[3, 12, 0], ⟨fun _ => false, fun _ => none⟩, fun _ => none⟩
          (parse_args_default "/home/user")).logs).map LogRec.msg =
      ["Starting \x7b\x7bSCRIPT_NAME\x7d\x7d",
        "Configuration file " ++ defaultConfigPath "/home/user" ++
          " not found, using defaults",
        "Script logic not yet implemented",
        "\x7b\x7bSCRIPT_NAME\x7d\x7d completed successfully"] := by
  have h := main_default_run "/home/user" [3, 12, 0]
    ⟨fun _ => false, fun _ => none⟩ (fun _ => none) (by decide) rfl
  exact ⟨h.1, h.2.2.2⟩

/-- **C8, counterexample.** With `--dry-run` but an interpreter below the
minimum version, the dry-run branch is never reached, so no dry-run notice
is logged: the claim's "logs a dry-run notice" does not hold of every
invocation with the flag. -/
theorem main_dry_run_counterexample :
    ¬ ((⟨.info, "DRY RUN MODE - No changes will be made"⟩ : LogRec) ∈
      (main ⟨[3, 7, 0], ⟨fun _ => false, fun _ => none⟩, fun _ => none⟩
        ⟨false, true, "cfg.json"⟩).logs) := by
  decide

/-- **C8, amended.** With `--dry-run`, `run_command` is never invoked; and
whenever the run reaches the dry-run branch (the requirements check
passes, the configuration loads, and `len(config)` is defined), the
dry-run notice is logged. -/
theorem main_dry_run (env : Env) (args : Args) (config : Json) (n : Nat)
    (hdry : args.dry_run = true) :
    (main env args).cmds = [] ∧
    ((check_requirements env.version_info).1 = true →
      (load_config env.fs env.json_load args.config).2 = .ok config →
      pyLen config = .ok n →
      (⟨.info, "DRY RUN MODE - No changes will be made"⟩ : LogRec) ∈
        (main env args).logs) := by
  constructor
  · rw [main, main_with_body_cmds, main_try_cmds]
  · intro hreq hcfg hlen
    apply main_with_body_logs_mem
    unfold main_try
    rcases hcr : check_requirements env.version_info with ⟨reqOk, reqLogs⟩
    rcases hlc : load_config env.fs env.json_load args.config
      with ⟨cfgLogs, cfgResult⟩
    rw [hcr] at hreq
    rw [hlc] at hcfg
    simp at hreq hcfg
    subst hreq hcfg
    simp [hlen, hdry]

/-- Witness for C8 (amended): a dry run on a supported interpreter with a
missing configuration file reaches the notice, and no command runs. -/
theorem main_dry_run_witness :
    (main ⟨[3, 12, 0], ⟨fun _ => false, fun _ => none⟩, fun _ => none⟩
      ⟨false, true, "cfg.json"⟩).cmds = [] ∧
    (⟨.info, "DRY RUN MODE - No changes will be made"⟩ : LogRec) ∈
      (main ⟨[3, 12, 0], ⟨fun _ => false, fun _ => none⟩, fun _ => none⟩
        ⟨false, true, "cfg.json"⟩).logs := by
  have h := main_dry_run
    ⟨[3, 12, 0], ⟨fun _ => false, fun _ => none⟩, fun _ => none⟩
    ⟨false, true, "cfg.json"⟩ (Json.obj []) 0 rfl
  exact ⟨h.1, h.2 rfl rfl rfl⟩

end Script
